import Mathlib

/-!
Shallow embedding of `generic-filesystem/src/lib.rs`: a storage-access
abstraction with two backends, a local filesystem provider
(`LocalFileProvider`) and an object-store provider (`AwsS3FileProvider`).

Modelling conventions:
* Byte contents (`Vec<u8>`) are `List Nat` (each element a byte value; no
  arithmetic is performed on bytes, so no wrapping is needed).
* The local filesystem collaborator (the OS) is a map from absolute path
  strings to optional file contents, threaded explicitly; the directory set
  for `create_dir` is a `List String`.
* The object-store client collaborator is passed per call as the outcome of
  the network request (success value or underlying error message), mirroring
  the fact that the Rust code treats the client as an external collaborator.
* Rust `Result<T, FileProviderError>` is `Except FileProviderError T`; Rust
  code that can also `panic!`/`unwrap`/`expect` is given the richer result
  type `RustResult` with an explicit `panic` outcome.
* `["a", "b"].join("")` in Rust is plain string concatenation `a ++ b`;
  `["a", "/", "b"].join("")` is `a ++ "/" ++ b`.
* `println!`/`eprintln!` logging is an I/O side effect with no bearing on the
  returned values and is not modelled.
-/

/-- Byte content of a file (`Vec<u8>`); each entry is one byte value. -/
abbrev ByteList := List Nat

/-- The local filesystem collaborator: file contents by absolute path. -/
abbrev FS := String → Option ByteList

/-- The shared error kind (`FileProviderError`), one variant carrying a
descriptive string (field `details`). -/
structure FileProviderError where
  details : String
deriving DecidableEq

/-- One listing member (`FileEntry`): name and size (`u64`, modelled as a
natural number below `2 ^ 64`). -/
structure FileEntry where
  name : String
  size : Nat
deriving DecidableEq

/-- Result of a Rust computation that can return `Ok`, return `Err`, or
abort the process (`panic!` / `unwrap` / `expect` / `unimplemented!`). -/
inductive RustResult (α : Type) where
  | ok (a : α)
  | err (e : FileProviderError)
  | panic (msg : String)
deriving DecidableEq

/-- Functorial map on the `ok` value of a `RustResult`. -/
def RustResult.map (f : α → β) : RustResult α → RustResult β
  | .ok a => .ok (f a)
  | .err e => .err e
  | .panic m => .panic m

/-- True exactly on the `panic` outcome. -/
def RustResult.isPanic : RustResult α → Bool
  | .panic _ => true
  | _ => false

/-- The message produced by `Option::unwrap()` on `None`. -/
def unwrapNoneMsg : String := "called `Option::unwrap()` on a `None` value"

/-- The OS display text for a not-found I/O error, used where the embedding
has to render the error message of a failed `open`/`copy` on a missing file. -/
def osNotFoundMsg : String := "No such file or directory (os error 2)"

/-- The local backend (`LocalFileProvider { base: String }`). -/
structure LocalFileProvider where
  base : String
deriving DecidableEq

/-- Embeds `LocalFileProvider::get_base_path`: returns the base identity. -/
def LocalFileProvider.get_base_path (self : LocalFileProvider) : String :=
  self.base

/-- Embeds `LocalFileProvider::write_file`: `std::fs::write` on
`[self.base, path].join("")`, i.e. an update of the filesystem map at
`base ++ path`; any OS failure would propagate via `?` (the map collaborator
itself has no failing writes). -/
def LocalFileProvider.write_file (self : LocalFileProvider) (path : String)
    (contents : ByteList) (fs : FS) : Except FileProviderError Unit × FS :=
  (.ok (), fun p => if p = self.base ++ path then some contents else fs p)

/-- Embeds `LocalFileProvider::read_file_buffer`: opens `[self.base, path].join("")`
for reading; on failure returns the shared error with message
`"File opening error: {e}\nPath: {path}"` where `path` is the resolved path. -/
def LocalFileProvider.read_file_buffer (self : LocalFileProvider)
    (path : String) (fs : FS) : Except FileProviderError ByteList :=
  let resolved := self.base ++ path
  match fs resolved with
  | some contents => .ok contents
  | none => .error ⟨"File opening error: " ++ osNotFoundMsg ++ "\nPath: " ++ resolved⟩

/-- Embeds `LocalFileProvider::move_file`:
`std::fs::copy([self.base, file_path].join(""), ending_path)?` followed, when
`delete` is set, by `std::fs::remove_file([self.base, file_path].join(""))?`.
The copy source is base-resolved, the destination is taken literally. A copy
from a missing source fails and the `?` returns before any deletion.
`std::fs::copy` opens the destination with truncation BEFORE streaming the
source, so when the destination path aliases the resolved source the file is
emptied first and zero bytes are then streamed: the aliased copy leaves an
empty file, with the copy still reporting success. -/
def LocalFileProvider.move_file (self : LocalFileProvider)
    (file_path ending_path : String) (delete : Bool) (fs : FS) :
    Except FileProviderError Unit × FS :=
  match fs (self.base ++ file_path) with
  | none => (.error ⟨osNotFoundMsg⟩, fs)
  | some contents =>
    let streamed : ByteList :=
      if self.base ++ file_path = ending_path then [] else contents
    let afterCopy : FS := fun p => if p = ending_path then some streamed else fs p
    if delete then
      (.ok (), fun p => if p = self.base ++ file_path then none else afterCopy p)
    else
      (.ok (), afterCopy)

/-- The `std::io::ErrorKind` values relevant to this crate's `create_dir`
match (`AlreadyExists` vs. everything else); three non-`AlreadyExists`
representatives stand in for "any other OS failure". -/
inductive IOErrorKind where
  | alreadyExists
  | notFound
  | permissionDenied
  | interrupted
deriving DecidableEq

/-- Display text of the underlying `std::io::Error`, used when the error is
converted into the shared kind by `FileProviderError::from`. -/
def ioErrorMessage : IOErrorKind → String
  | .alreadyExists => "File exists (os error 17)"
  | .notFound => "No such file or directory (os error 2)"
  | .permissionDenied => "Permission denied (os error 13)"
  | .interrupted => "operation interrupted"

/-- The OS collaborator for `std::fs::create_dir`: creating an existing
directory fails with `AlreadyExists`, otherwise the directory is added. -/
def os_create_dir (dirs : List String) (location : String) :
    Except IOErrorKind (List String) :=
  if location ∈ dirs then .error .alreadyExists else .ok (location :: dirs)

/-- Embeds `LocalFileProvider::create_dir`: builds
`[self.base, "/", path].join("")`, calls the OS `create_dir` on it, swallows
`AlreadyExists`, and surfaces every other kind through `e.into()`. The OS
call is a parameter so that arbitrary OS outcomes can be considered. -/
def LocalFileProvider.create_dir (self : LocalFileProvider)
    (osCreate : List String → String → Except IOErrorKind (List String))
    (path : String) (dirs : List String) :
    Except FileProviderError Unit × List String :=
  let location := self.base ++ "/" ++ path
  match osCreate dirs location with
  | .ok d => (.ok (), d)
  | .error .alreadyExists => (.ok (), dirs)
  | .error e => (.error ⟨ioErrorMessage e⟩, dirs)

/-- One entry yielded by the OS `read_dir` collaborator: the file name and
the metadata size lookup, which can fail (`None`). -/
structure DirEntry where
  name : String
  metadata : Option Nat
deriving DecidableEq

/-- The loop body of `LocalFileProvider::read_dir`: for each entry, build
`FileEntry { name, size: entry.metadata().unwrap().len() }`; a failed
metadata lookup panics via `unwrap`. -/
def collectLocalEntries : List DirEntry → RustResult (List FileEntry)
  | [] => .ok []
  | e :: rest =>
    match e.metadata with
    | none => .panic unwrapNoneMsg
    | some sz =>
      match collectLocalEntries rest with
      | .ok es => .ok (⟨e.name, sz⟩ :: es)
      | r => r

/-- Embeds `LocalFileProvider::read_dir`: lists `[self.base, path].join("")` via the
OS collaborator (failure propagates through `?`), then folds the entries. -/
def LocalFileProvider.read_dir (self : LocalFileProvider)
    (osReadDir : String → Except FileProviderError (List DirEntry))
    (path : String) : RustResult (List FileEntry) :=
  match osReadDir (self.base ++ path) with
  | .error e => .err e
  | .ok entries => collectLocalEntries entries

/-- Embeds `LocalFileProvider::list_dir`: calls
`self.read_dir(&[self.base, path].join(""))` and maps each entry to
`[self.base, path, "/", item.name].join("")`. -/
def LocalFileProvider.list_dir (self : LocalFileProvider)
    (osReadDir : String → Except FileProviderError (List DirEntry))
    (path : String) : RustResult (List String) :=
  RustResult.map
    (fun items => items.map fun item => self.base ++ path ++ "/" ++ item.name)
    (self.read_dir osReadDir (self.base ++ path))

/-- A concrete filesystem holding one file at `"/data/a.txt"`, used to
exhibit the degenerate self-move of `move_file`. -/
def fsSelfMove : FS :=
  fun p => if p = "/data/a.txt" then some [104, 105] else none

/-- A concrete filesystem holding one file at `"/data/a.txt"`. -/
def fsWitnessMove : FS :=
  fun p => if p = "/data/a.txt" then some [104] else none

/-- Splitting a character list at every occurrence of the separator `c`,
mirroring Rust `str::split`: the result always has at least one (possibly
empty) piece, and a string with no separator yields itself as the sole piece. -/
def splitChar (c : Char) : List Char → List (List Char)
  | [] => [[]]
  | x :: xs =>
    if x = c then
      [] :: splitChar c xs
    else
      match splitChar c xs with
      | [] => [[x]]
      | y :: ys => (x :: y) :: ys

/-- Rust `s.split(sep).collect::<Vec<_>>()` for a one-character separator. -/
def rustSplit (c : Char) (s : String) : List String :=
  (splitChar c s.data).map fun l => ⟨l⟩

/-- Boolean substring test on character lists: true when `needle` occurs
contiguously inside `hay`. -/
def containsSub : List Char → List Char → Bool
  | needle, [] => needle.isEmpty
  | needle, hay@(_ :: rest) => needle.isPrefixOf hay || containsSub needle rest

/-- One object in a `list_objects_v2` response: optional key and optional
signed 64-bit size, as surfaced by the SDK. -/
structure S3Object where
  key : Option String
  size : Option Int
deriving DecidableEq

/-- A `list_objects_v2` response: the contents list may be absent. -/
structure S3ListResponse where
  contents : Option (List S3Object)
deriving DecidableEq

/-- Rust `as`-cast from `i64` to `u64`: two's-complement reinterpretation,
i.e. reduction modulo `2 ^ 64` (for `s` in the `i64` range the cast value is
`s` itself when nonnegative and `2 ^ 64 + s` when negative). -/
def i64_as_u64 (s : Int) : Nat := (s % (2 ^ 64 : Int)).toNat

/-- The object-store backend (`AwsS3FileProvider { bucket, client }`); the
network client is the external collaborator, passed per call as outcomes. -/
structure AwsS3FileProvider where
  bucket : String
deriving DecidableEq

/-- Embeds `AwsS3FileProvider::get_base_path`: returns the bucket name. -/
def AwsS3FileProvider.get_base_path (self : AwsS3FileProvider) : String :=
  self.bucket

/-- Embeds `AwsS3FileProvider::read_file_buffer`: `get_object` on
`(self.bucket, path)`; the request outcome carries, on success, the body
collection outcome. Either failure is logged and returned as the shared
error with message exactly `e.to_string()` — the key is not appended. -/
def AwsS3FileProvider.read_file_buffer (self : AwsS3FileProvider)
    (path : String) (getResult : Except String (Except String ByteList)) :
    Except FileProviderError ByteList :=
  match getResult with
  | .error e => .error ⟨e⟩
  | .ok body =>
    match body with
    | .ok data => .ok data
    | .error e => .error ⟨e⟩

/-- Embeds `AwsS3FileProvider::write_file`: `put_object` of `contents` under
key `path` in `self.bucket`; BOTH outcomes of the upload are merely printed
and the function returns `Ok(())` unconditionally (the failure arm does not
propagate the error). -/
def AwsS3FileProvider.write_file (self : AwsS3FileProvider) (path : String)
    (contents : ByteList) (putResult : Except String Unit) :
    Except FileProviderError Unit :=
  match putResult with
  | .ok _ => .ok ()
  | .error _ => .ok ()

/-- The loop body of `AwsS3FileProvider::read_dir`: for each listed object,
`FileEntry { name: entry.key.unwrap(), size: entry.size.unwrap() as u64 }`;
a missing key or size panics via `unwrap`, and the size cast is a raw
`i64 -> u64` reinterpretation. -/
def collectS3Entries : List S3Object → RustResult (List FileEntry)
  | [] => .ok []
  | o :: rest =>
    match o.key with
    | none => .panic unwrapNoneMsg
    | some k =>
      match o.size with
      | none => .panic unwrapNoneMsg
      | some s =>
        match collectS3Entries rest with
        | .ok es => .ok (⟨k, i64_as_u64 s⟩ :: es)
        | r => r

/-- Embeds `AwsS3FileProvider::read_dir`: `list_objects_v2` on `self.bucket`
with prefix `pfx` (transport failure propagates via `?`), then
`resp.contents.unwrap()` — a missing contents list panics — and the fold of
the entries. `listObjects` takes the bucket and the prefix. -/
def AwsS3FileProvider.read_dir (self : AwsS3FileProvider)
    (listObjects : String → String → Except String S3ListResponse)
    (pfx : String) : RustResult (List FileEntry) :=
  match listObjects self.bucket pfx with
  | .error e => .err ⟨e⟩
  | .ok resp =>
    match resp.contents with
    | none => .panic unwrapNoneMsg
    | some objects => collectS3Entries objects

/-- Embeds `AwsS3FileProvider::list_dir`: the path argument is the unnamed
`_` parameter; calls `self.read_dir("")` and maps each entry to
`[self.bucket, "/", item.name].join("")`. -/
def AwsS3FileProvider.list_dir (self : AwsS3FileProvider)
    (listObjects : String → String → Except String S3ListResponse)
    (path : String) : RustResult (List String) :=
  RustResult.map
    (fun items => items.map fun item => self.bucket ++ "/" ++ item.name)
    (self.read_dir listObjects "")

/-- One request issued to the object-store client by `move_file`, recorded
with the argument strings the code passes. -/
inductive S3Action where
  | copyObject (copy_source bucket key : String)
  | deleteObject (bucket key : String)
deriving DecidableEq

/-- Embeds `AwsS3FileProvider::move_file`: splits `ending_path` on `"/"`,
takes the FIRST segment as the destination bucket via
`.first().expect("You didn't supply a / with your request. ...")`, issues a
server-side copy with `copy_source = [self.bucket, "/", file_name].join("")`
keyed under `file_name`, and, when `delete` is set, deletes `file_name` from
`self.bucket`. Client outcomes are parameters; on success the value lists
the requests issued, in order. -/
def AwsS3FileProvider.move_file (self : AwsS3FileProvider)
    (file_name ending_path : String) (delete : Bool)
    (copyOutcome deleteOutcome : Except String Unit) :
    RustResult (List S3Action) :=
  match rustSplit '/' ending_path with
  | [] => .panic "You didn't supply a / with your request. It should be {bucket}/{file_name}"
  | ending_file_location :: _ =>
    match copyOutcome with
    | .error e => .err ⟨e⟩
    | .ok _ =>
      if delete then
        match deleteOutcome with
        | .error e => .err ⟨e⟩
        | .ok _ =>
          .ok [S3Action.copyObject (self.bucket ++ "/" ++ file_name)
                 ending_file_location file_name,
               S3Action.deleteObject self.bucket file_name]
      else
        .ok [S3Action.copyObject (self.bucket ++ "/" ++ file_name)
               ending_file_location file_name]

/-- Claim C1: for the local backend, for every path and byte content,
`write_file path content` followed by `read_file_buffer path` yields exactly
`content`, byte for byte. -/
theorem C1_local_write_read_roundtrip
    (self : LocalFileProvider) (path : String) (contents : ByteList) (fs : FS) :
    self.read_file_buffer path (self.write_file path contents fs).2 = .ok contents := by
  simp [LocalFileProvider.read_file_buffer, LocalFileProvider.write_file]

/-- Claim C3 (amended): for the local backend's `move_file(src, dst, delete)`,
the copy reads from the base-resolved source `base ++ src` and writes to `dst`
taken literally; when the copy fails no deletion occurs and the filesystem is
left unchanged, source in place; when `dst` differs from the base-resolved
source, the content ends up readable at `dst` and, with `delete` true, absent
at the source, while with `delete` false it is readable at both; when `dst`
equals the base-resolved source the copy truncates the file before streaming,
leaving it empty (and `delete` true then removes it). -/
theorem C3_local_move_file :
    (∀ (self : LocalFileProvider) (src dst : String) (c : ByteList) (fs : FS),
      fs (self.base ++ src) = some c → dst ≠ self.base ++ src →
        (self.move_file src dst true fs).1 = .ok () ∧
        (self.move_file src dst true fs).2 dst = some c ∧
        (self.move_file src dst true fs).2 (self.base ++ src) = none) ∧
    (∀ (self : LocalFileProvider) (src dst : String) (c : ByteList) (fs : FS),
      fs (self.base ++ src) = some c → dst ≠ self.base ++ src →
        (self.move_file src dst false fs).1 = .ok () ∧
        (self.move_file src dst false fs).2 dst = some c ∧
        (self.move_file src dst false fs).2 (self.base ++ src) = some c) ∧
    (∀ (self : LocalFileProvider) (src dst : String) (delete : Bool) (fs : FS),
      fs (self.base ++ src) = none →
        (self.move_file src dst delete fs).1 = .error ⟨osNotFoundMsg⟩ ∧
        (self.move_file src dst delete fs).2 = fs) ∧
    (∀ (self : LocalFileProvider) (src : String) (c : ByteList) (fs : FS),
      fs (self.base ++ src) = some c →
        (self.move_file src (self.base ++ src) false fs).2 (self.base ++ src) = some [] ∧
        (self.move_file src (self.base ++ src) true fs).2 (self.base ++ src) = none) := by
  refine ⟨?_, ?_, ?_, ?_⟩
  · intro self src dst c fs hsrc hne
    have hne' : self.base ++ src ≠ dst := fun h => hne h.symm
    simp only [LocalFileProvider.move_file, hsrc]
    refine ⟨rfl, ?_, ?_⟩
    · simp [hne, hne']
    · simp [hsrc]
  · intro self src dst c fs hsrc hne
    have hne' : self.base ++ src ≠ dst := fun h => hne h.symm
    simp only [LocalFileProvider.move_file, hsrc]
    refine ⟨rfl, ?_, ?_⟩
    · simp [hne']
    · simp [hne', hsrc]
  · intro self src dst delete fs hsrc
    simp [LocalFileProvider.move_file, hsrc]
  · intro self src c fs hsrc
    simp [LocalFileProvider.move_file, hsrc]

/-- Claim C3, counterexample to the claim as stated: with the file
`"/data/a.txt"` present, `move_file "/a.txt" "/data/a.txt" delete` resolves
the source to exactly the literal destination. With `delete` true the
deletion removes the freshly copied file, so the content is NOT readable at
`dst`, refuting "when delete is true the content ends up readable at dst";
with `delete` false the copy truncates the aliased file to empty before
streaming, so the content `[104, 105]` is readable at neither location,
refuting "when delete is false it is readable at both". -/
theorem C3_self_move_counterexample :
    fsSelfMove ("/data" ++ "/a.txt") = some [104, 105] ∧
    ((LocalFileProvider.mk "/data").move_file "/a.txt" "/data/a.txt" true fsSelfMove).1 = .ok () ∧
    ((LocalFileProvider.mk "/data").move_file "/a.txt" "/data/a.txt" true fsSelfMove).2 "/data/a.txt" = none ∧
    ((LocalFileProvider.mk "/data").move_file "/a.txt" "/data/a.txt" false fsSelfMove).1 = .ok () ∧
    ((LocalFileProvider.mk "/data").move_file "/a.txt" "/data/a.txt" false fsSelfMove).2 "/data/a.txt" = some [] := by
  refine ⟨rfl, rfl, rfl, rfl, rfl⟩

/-- Claim C3, witness: the amended theorem applied to a concrete move of
`"/data/a.txt"` to `"/tmp/out"` with deletion. -/
theorem C3_local_move_file_witness :
    ((LocalFileProvider.mk "/data").move_file "/a.txt" "/tmp/out" true fsWitnessMove).2 "/tmp/out" = some [104] ∧
    ((LocalFileProvider.mk "/data").move_file "/a.txt" "/tmp/out" true fsWitnessMove).2 ((LocalFileProvider.mk "/data").base ++ "/a.txt") = none :=
  ⟨(C3_local_move_file.1 (LocalFileProvider.mk "/data") "/a.txt" "/tmp/out" [104]
      fsWitnessMove (by decide) (by decide)).2.1,
   (C3_local_move_file.1 (LocalFileProvider.mk "/data") "/a.txt" "/tmp/out" [104]
      fsWitnessMove (by decide) (by decide)).2.2⟩

/-- Claim C4: for the local backend, `create_dir` is idempotent — against the
OS `create_dir` collaborator, the second of two calls on the same path always
succeeds; an `AlreadyExists` failure from the OS is swallowed and the call
succeeds leaving the directory set unchanged; every other OS failure kind is
surfaced as the shared error wrapping the OS message. -/
theorem C4_local_create_dir_idempotent :
    (∀ (self : LocalFileProvider) (path : String) (dirs : List String),
      (self.create_dir os_create_dir path
        (self.create_dir os_create_dir path dirs).2).1 = .ok ()) ∧
    (∀ (self : LocalFileProvider)
      (osCreate : List String → String → Except IOErrorKind (List String))
      (path : String) (dirs : List String),
      osCreate dirs (self.base ++ "/" ++ path) = .error .alreadyExists →
        self.create_dir osCreate path dirs = (.ok (), dirs)) ∧
    (∀ (self : LocalFileProvider)
      (osCreate : List String → String → Except IOErrorKind (List String))
      (path : String) (dirs : List String) (k : IOErrorKind),
      k ≠ IOErrorKind.alreadyExists →
      osCreate dirs (self.base ++ "/" ++ path) = .error k →
        (self.create_dir osCreate path dirs).1 = .error ⟨ioErrorMessage k⟩) := by
  refine ⟨?_, ?_, ?_⟩
  · intro self path dirs
    by_cases h : (self.base ++ "/" ++ path) ∈ dirs <;>
      simp [LocalFileProvider.create_dir, os_create_dir, h]
  · intro self osCreate path dirs h
    simp [LocalFileProvider.create_dir, h]
  · intro self osCreate path dirs k hk h
    cases k
    · exact absurd rfl hk
    all_goals simp [LocalFileProvider.create_dir, h]

/-- Claim C4, witness: the swallowing and surfacing branches of the theorem
at concrete inputs. -/
theorem C4_local_create_dir_witness :
    (LocalFileProvider.mk "/data").create_dir (fun _ _ => .error .alreadyExists) "/sub" [] = (.ok (), []) ∧
    ((LocalFileProvider.mk "/data").create_dir (fun _ _ => .error .notFound) "/sub" []).1 = .error ⟨ioErrorMessage .notFound⟩ :=
  ⟨C4_local_create_dir_idempotent.2.1 (LocalFileProvider.mk "/data")
      (fun _ _ => .error .alreadyExists) "/sub" [] rfl,
   C4_local_create_dir_idempotent.2.2 (LocalFileProvider.mk "/data")
      (fun _ _ => .error .notFound) "/sub" [] .notFound (by decide) rfl⟩

/-- A character list is a Boolean prefix of itself followed by anything. -/
theorem isPrefixOf_append_self (l s : List Char) : l.isPrefixOf (l ++ s) = true := by
  induction l with
  | nil => simp [List.isPrefixOf]
  | cons a as ih => simp [List.isPrefixOf, ih]

/-- A Boolean prefix of a list is a substring of it. -/
theorem containsSub_of_isPrefixOf (n h : List Char) (hp : n.isPrefixOf h = true) :
    containsSub n h = true := by
  cases h with
  | nil =>
    cases n with
    | nil => rfl
    | cons a as => simp [List.isPrefixOf] at hp
  | cons b bs => simp [containsSub, hp]

/-- Any list of the shape `p ++ n` contains `n` as a substring. -/
theorem containsSub_append_self (p n : List Char) : containsSub n (p ++ n) = true := by
  induction p with
  | nil =>
    have h := isPrefixOf_append_self n []
    rw [List.append_nil] at h
    simpa using containsSub_of_isPrefixOf n n h
  | cons x xs ih => simp [containsSub, ih]

/-- When every entry's metadata lookup succeeds, the local listing loop
returns one `FileEntry` per entry, in order, with the looked-up sizes. -/
theorem collectLocalEntries_all_some (es : List DirEntry)
    (h : ∀ e ∈ es, e.metadata.isSome) :
    collectLocalEntries es = .ok (es.map fun e => ⟨e.name, e.metadata.getD 0⟩) := by
  induction es with
  | nil => simp [collectLocalEntries]
  | cons e rest ih =>
    obtain ⟨sz, hsz⟩ := Option.isSome_iff_exists.mp (h e (by simp))
    simp [collectLocalEntries, hsz, ih fun x hx => h x (by simp [hx])]

/-- When every object carries a key and a size, the object-store listing
loop returns one `FileEntry` per object, in order, with the cast sizes. -/
theorem collectS3Entries_all_some (objects : List S3Object)
    (h : ∀ o ∈ objects, o.key.isSome ∧ o.size.isSome) :
    collectS3Entries objects =
      .ok (objects.map fun o => ⟨o.key.getD "", i64_as_u64 (o.size.getD 0)⟩) := by
  induction objects with
  | nil => simp [collectS3Entries]
  | cons o rest ih =>
    obtain ⟨k, hk⟩ := Option.isSome_iff_exists.mp (h o (by simp)).1
    obtain ⟨sz, hsz⟩ := Option.isSome_iff_exists.mp (h o (by simp)).2
    simp [collectS3Entries, hk, hsz, ih fun x hx => h x (by simp [hx])]

/-- If any listed object lacks a key or a size, the object-store listing
loop aborts with the `unwrap`-on-`None` panic. -/
theorem collectS3Entries_panics_of_missing (objects : List S3Object)
    (h : ∃ o ∈ objects, o.key = none ∨ o.size = none) :
    collectS3Entries objects = .panic unwrapNoneMsg := by
  induction objects with
  | nil => simp at h
  | cons o rest ih =>
    rcases h with ⟨q, hq, hbad⟩
    rcases List.mem_cons.mp hq with rfl | hmem
    · rcases hbad with hk | hs
      · simp [collectS3Entries, hk]
      · cases hk : q.key <;> simp [collectS3Entries, hk, hs]
    · have hrest := ih ⟨q, hmem, hbad⟩
      cases hk : o.key
      · simp [collectS3Entries, hk]
      · cases hs : o.size
        · simp [collectS3Entries, hk, hs]
        · simp [collectS3Entries, hk, hs, hrest]

/-- Splitting never yields the empty list of pieces: there is always at
least one (possibly empty) piece. -/
theorem splitChar_ne_nil (c : Char) (l : List Char) : splitChar c l ≠ [] := by
  cases l with
  | nil => simp [splitChar]
  | cons x xs =>
    simp only [splitChar]
    split
    · simp
    · split <;> simp

/-- A list with no occurrence of the separator splits into itself alone. -/
theorem splitChar_no_sep (c : Char) (l : List Char) (h : ∀ x ∈ l, x ≠ c) :
    splitChar c l = [l] := by
  induction l with
  | nil => rfl
  | cons x xs ih =>
    have hx : x ≠ c := h x (by simp)
    have hrest := ih fun y hy => h y (by simp [hy])
    simp [splitChar, hx, hrest]

/-- Claim C2 (code bug): for the object-store backend, a failed `put_object`
upload is logged and `write_file` still returns success — the failure is NOT
propagated to the caller as the shared error, contradicting the propagation
policy the spec states. -/
theorem C2_s3_write_file_swallows_failure :
    (AwsS3FileProvider.mk "bucket1").write_file "a.txt" [104, 105]
      (.error "connection reset by peer") = .ok () := rfl

/-- Claim C5 (amended): for the local backend, reading a nonexistent path
returns a not-found error whose message contains the resolved path, with no
abrupt stop; for the object-store backend, a failed read returns the shared
error carrying exactly the underlying client message (the key is only
logged, not included in the returned message). -/
theorem C5_read_not_found_error :
    (∀ (self : LocalFileProvider) (path : String) (fs : FS),
       fs (self.base ++ path) = none →
       ∃ e, self.read_file_buffer path fs = .error e ∧
         containsSub (self.base ++ path).data e.details.data = true) ∧
    (∀ (self : AwsS3FileProvider) (path msg : String),
       self.read_file_buffer path (.error msg) = .error ⟨msg⟩) := by
  constructor
  · intro self path fs h
    refine ⟨⟨"File opening error: " ++ osNotFoundMsg ++ "\nPath: " ++ (self.base ++ path)⟩,
      ?_, ?_⟩
    · simp [LocalFileProvider.read_file_buffer, h]
    · have hdata :
        ("File opening error: " ++ osNotFoundMsg ++ "\nPath: " ++ (self.base ++ path)).data =
          ("File opening error: " ++ osNotFoundMsg ++ "\nPath: ").data ++
            (self.base ++ path).data := by
        simp [String.data_append]
      rw [hdata]
      exact containsSub_append_self _ _
  · intro self path msg
    rfl

/-- Claim C5, counterexample to the claim as stated: for the object-store
backend the returned error message is the underlying client message verbatim
("service error"), which does not contain the attempted key "missing.txt". -/
theorem C5_s3_key_not_in_message :
    (AwsS3FileProvider.mk "bucket1").read_file_buffer "missing.txt"
      (.error "service error") = .error ⟨"service error"⟩ ∧
    containsSub "missing.txt".data "service error".data = false :=
  ⟨rfl, by decide⟩

/-- Claim C5, witness: the local branch of the theorem at a concrete
missing file. -/
theorem C5_read_not_found_witness :
    ∃ e, (LocalFileProvider.mk "/data").read_file_buffer "/gone.txt" (fun _ => none) = .error e ∧
      containsSub ((LocalFileProvider.mk "/data").base ++ "/gone.txt").data e.details.data = true :=
  C5_read_not_found_error.1 (LocalFileProvider.mk "/data") "/gone.txt" (fun _ => none) rfl

/-- Claim C6 (amended): for the object-store backend's `move_file`, the
destination path is split on the separator and only its first segment is the
destination bucket, the copy is always keyed under the original file name
(the remainder of the destination is discarded), and the source key is
deleted from the source bucket exactly when `delete` is true; however a
destination with no separator is NOT a fatal stop — the split always yields
at least one segment, so the `expect` never fires and the whole destination
string becomes the destination bucket. -/
theorem C6_s3_move_file_destination :
    (∀ (self : AwsS3FileProvider) (file_name ending_path : String) (delete : Bool)
       (copyOutcome deleteOutcome : Except String Unit),
       (self.move_file file_name ending_path delete copyOutcome deleteOutcome).isPanic = false) ∧
    (∀ (self : AwsS3FileProvider) (file_name ending_path : String) (delete : Bool),
       ∃ b rest, rustSplit '/' ending_path = b :: rest ∧
         self.move_file file_name ending_path delete (.ok ()) (.ok ()) =
           .ok (S3Action.copyObject (self.bucket ++ "/" ++ file_name) b file_name ::
             if delete then [S3Action.deleteObject self.bucket file_name] else [])) ∧
    (∀ s : String, (∀ x ∈ s.data, x ≠ '/') → rustSplit '/' s = [s]) := by
  refine ⟨?_, ?_, ?_⟩
  · intro self file_name ending_path delete copyOutcome deleteOutcome
    cases hsp : rustSplit '/' ending_path with
    | nil =>
      exact absurd (List.map_eq_nil_iff.mp hsp) (splitChar_ne_nil '/' ending_path.data)
    | cons b rest =>
      cases copyOutcome with
      | error e => simp [AwsS3FileProvider.move_file, hsp, RustResult.isPanic]
      | ok u =>
        cases delete <;> cases deleteOutcome <;>
          simp [AwsS3FileProvider.move_file, hsp, RustResult.isPanic]
  · intro self file_name ending_path delete
    cases hsp : rustSplit '/' ending_path with
    | nil =>
      exact absurd (List.map_eq_nil_iff.mp hsp) (splitChar_ne_nil '/' ending_path.data)
    | cons b rest =>
      refine ⟨b, rest, rfl, ?_⟩
      cases delete <;> simp [AwsS3FileProvider.move_file, hsp]
  · intro s h
    have hs : splitChar '/' s.data = [s.data] := splitChar_no_sep '/' s.data h
    simp only [rustSplit, hs, List.map]

/-- Claim C6, counterexample to the claim as stated: a destination path with
no separator does not abort; `move_file` issues the copy using the whole
destination string as the destination bucket and succeeds. -/
theorem C6_no_separator_does_not_panic :
    (AwsS3FileProvider.mk "srcbucket").move_file "f.txt" "destbucket" true (.ok ()) (.ok ()) =
      .ok [S3Action.copyObject "srcbucket/f.txt" "destbucket" "f.txt",
           S3Action.deleteObject "srcbucket" "f.txt"] := by decide

/-- Claim C6, witness: the no-separator clause of the theorem at a concrete
destination string. -/
theorem C6_s3_move_file_witness :
    rustSplit '/' "destbucket" = ["destbucket"] :=
  C6_s3_move_file_destination.2.2 "destbucket" (by decide)

/-- Claim C7: for the local backend, `list_dir path` invokes `read_dir` with
the base-joined argument `base ++ path`, so by the time `read_dir` resolves
its own argument the OS listing runs on `base ++ (base ++ path)` — the base
is applied twice — and each returned entry is mapped to
`base ++ path ++ "/" ++ name`; the result depends on the OS listing only at
that doubly-joined location. -/
theorem C7_local_list_dir_double_base :
    (∀ (self : LocalFileProvider)
       (osReadDir : String → Except FileProviderError (List DirEntry))
       (path : String) (es : List DirEntry),
       osReadDir (self.base ++ (self.base ++ path)) = .ok es →
       (∀ e ∈ es, e.metadata.isSome) →
       self.list_dir osReadDir path =
         .ok (es.map fun e => self.base ++ path ++ "/" ++ e.name)) ∧
    (∀ (self : LocalFileProvider)
       (osA osB : String → Except FileProviderError (List DirEntry)) (path : String),
       osA (self.base ++ (self.base ++ path)) = osB (self.base ++ (self.base ++ path)) →
       self.list_dir osA path = self.list_dir osB path) := by
  constructor
  · intro self osReadDir path es hos hmeta
    simp [LocalFileProvider.list_dir, LocalFileProvider.read_dir, hos,
      collectLocalEntries_all_some es hmeta, RustResult.map]
  · intro self osA osB path h
    simp [LocalFileProvider.list_dir, LocalFileProvider.read_dir, h]

/-- Claim C7, witness: the theorem at a concrete provider, OS listing and
path, exhibiting the doubly-joined OS argument and the mapped output. -/
theorem C7_local_list_dir_witness :
    (LocalFileProvider.mk "/data").list_dir (fun _ => .ok [⟨"a.txt", some 5⟩]) "/" =
      .ok (([⟨"a.txt", some 5⟩] : List DirEntry).map fun e =>
        (LocalFileProvider.mk "/data").base ++ "/" ++ "/" ++ e.name) :=
  C7_local_list_dir_double_base.1 (LocalFileProvider.mk "/data")
    (fun _ => .ok [⟨"a.txt", some 5⟩]) "/" [⟨"a.txt", some 5⟩] rfl (by decide)

/-- Claim C8: for the object-store backend, `list_dir` ignores its path
argument: any two path arguments give the same result, that result is the
full-bucket listing with the empty prefix, and for a response listing keyed
objects the output is exactly `bucket ++ "/" ++ key` per object. -/
theorem C8_s3_list_dir_ignores_path :
    (∀ (self : AwsS3FileProvider)
       (listObjects : String → String → Except String S3ListResponse) (p q : String),
       self.list_dir listObjects p = self.list_dir listObjects q) ∧
    (∀ (self : AwsS3FileProvider)
       (listObjects : String → String → Except String S3ListResponse) (p : String),
       self.list_dir listObjects p =
         RustResult.map (fun items => items.map fun item => self.bucket ++ "/" ++ item.name)
           (self.read_dir listObjects "")) ∧
    (∀ (self : AwsS3FileProvider)
       (listObjects : String → String → Except String S3ListResponse)
       (p : String) (objects : List S3Object),
       listObjects self.bucket "" = .ok ⟨some objects⟩ →
       (∀ o ∈ objects, o.key.isSome ∧ o.size.isSome) →
       self.list_dir listObjects p =
         .ok (objects.map fun o => self.bucket ++ "/" ++ o.key.getD "")) := by
  refine ⟨?_, ?_, ?_⟩
  · intro self listObjects p q
    rfl
  · intro self listObjects p
    rfl
  · intro self listObjects p objects hresp hsome
    simp [AwsS3FileProvider.list_dir, AwsS3FileProvider.read_dir, hresp,
      collectS3Entries_all_some objects hsome, RustResult.map]

/-- Claim C8, witness: the keyed-objects clause of the theorem at a concrete
bucket, response and (ignored) path. -/
theorem C8_s3_list_dir_witness :
    (AwsS3FileProvider.mk "bkt").list_dir
      (fun _ _ => .ok ⟨some [⟨some "k1.txt", some 3⟩]⟩) "ignored" =
      .ok (([⟨some "k1.txt", some 3⟩] : List S3Object).map fun o =>
        (AwsS3FileProvider.mk "bkt").bucket ++ "/" ++ o.key.getD "") :=
  C8_s3_list_dir_ignores_path.2.2 (AwsS3FileProvider.mk "bkt")
    (fun _ _ => .ok ⟨some [⟨some "k1.txt", some 3⟩]⟩) "ignored"
    [⟨some "k1.txt", some 3⟩] rfl (by decide)

/-- Claim C9 (code bug): for the object-store backend, a listing response
with no contents list makes `read_dir` abort via `Option::unwrap` instead of
returning the empty sequence of entries. -/
theorem C9_s3_read_dir_missing_contents_panics :
    (AwsS3FileProvider.mk "bkt").read_dir (fun _ _ => .ok ⟨none⟩) "" =
      .panic unwrapNoneMsg := rfl

/-- Claim C10: for the object-store backend, `read_dir` aborts with a panic
(not the shared error) whenever any listed entry lacks a key or a size; when
a size is present the entry is built with the raw `i64 -> u64` cast, and a
negative reported size wraps to the huge value `2 ^ 64 + s ≥ 2 ^ 63`. -/
theorem C10_s3_read_dir_unwraps_and_casts :
    (∀ (self : AwsS3FileProvider)
       (listObjects : String → String → Except String S3ListResponse)
       (pfx : String) (objects : List S3Object),
       listObjects self.bucket pfx = .ok ⟨some objects⟩ →
       (∃ o ∈ objects, o.key = none ∨ o.size = none) →
       self.read_dir listObjects pfx = .panic unwrapNoneMsg) ∧
    (∀ (k : String) (s : Int),
       collectS3Entries [⟨some k, some s⟩] = .ok [⟨k, i64_as_u64 s⟩]) ∧
    (∀ s : Int, -(2 ^ 63) ≤ s → s < 0 →
       i64_as_u64 s = (2 ^ 64 + s).toNat ∧ 2 ^ 63 ≤ i64_as_u64 s) := by
  refine ⟨?_, ?_, ?_⟩
  · intro self listObjects pfx objects hresp hbad
    simp [AwsS3FileProvider.read_dir, hresp,
      collectS3Entries_panics_of_missing objects hbad]
  · intro k s
    simp [collectS3Entries]
  · intro s h1 h2
    unfold i64_as_u64
    norm_num at h1 ⊢
    omega

/-- Claim C10, witness: the panic clause at a concrete keyless entry and the
cast clause at size `-1`. -/
theorem C10_s3_read_dir_witness :
    (AwsS3FileProvider.mk "bkt").read_dir
      (fun _ _ => .ok ⟨some [⟨none, some 5⟩]⟩) "p" = .panic unwrapNoneMsg ∧
    i64_as_u64 (-1) = ((2 : Int) ^ 64 + (-1)).toNat :=
  ⟨C10_s3_read_dir_unwraps_and_casts.1 (AwsS3FileProvider.mk "bkt")
      (fun _ _ => .ok ⟨some [⟨none, some 5⟩]⟩) "p" [⟨none, some 5⟩] rfl
      ⟨⟨none, some 5⟩, by simp, Or.inl rfl⟩,
   (C10_s3_read_dir_unwraps_and_casts.2.2 (-1) (by norm_num) (by norm_num)).1⟩
